import Mathlib

/-!
Verification development for the AgentiCat A2A dashboard.

The repository's core logic (agent-card normalisation in `src/lib/a2a/schema.ts`,
the API route handlers in `src/app/api/agents/*/route.ts`, and the client-side
session driver and per-agent state store in the main page component) is embedded
shallowly below.  JavaScript runtime values arriving from `JSON.parse` are
modelled by the inductive type `JsVal`; JS numbers are modelled as `Int`, which
is adequate here because the code only type-tests numbers and interpolates them
into strings, never doing arithmetic on them.
-/

/-- A JSON value as manipulated by the TypeScript code (`unknown` after
`JSON.parse`).  Objects are association lists in insertion order with unique
keys, matching JS object semantics for parsed JSON. -/
inductive JsVal where
  | null : JsVal
  | bool : Bool → JsVal
  | num : Int → JsVal
  | str : String → JsVal
  | arr : List JsVal → JsVal
  | obj : List (String × JsVal) → JsVal

/-- First field with the given key (JS property lookup on a parsed-JSON object;
parsed JSON never has duplicate keys). -/
def lookupField : List (String × JsVal) → String → Option JsVal
  | [], _ => Option.none
  | (k, v) :: fs, key => if k = key then some v else lookupField fs key

/-- JS property access `v[key]`: defined on objects, `undefined` (`none`)
on every other value (arrays from JSON have no string-keyed own properties). -/
def JsVal.get : JsVal → String → Option JsVal
  | .obj fs, k => lookupField fs k
  | _, _ => Option.none

/-- JS truthiness of a value (`NaN` is not representable in the `Int` number
model, otherwise this is exactly the ECMAScript ToBoolean on JSON values). -/
def jsTruthy : JsVal → Bool
  | .null => false
  | .bool b => b
  | .num n => n ≠ 0
  | .str s => s ≠ ""
  | .arr _ => true
  | .obj _ => true

/-- JS `a || b` on two possibly-absent values (`none` models `undefined`). -/
def jsOrVal (a b : Option JsVal) : Option JsVal :=
  match a with
  | some v => if jsTruthy v then some v else b
  | Option.none => b

/-- JS `a ?? b` on two possibly-absent values: `b` when `a` is absent or null. -/
def jsCoalesce (a b : Option JsVal) : Option JsVal :=
  match a with
  | some JsVal.null => b
  | some v => some v
  | Option.none => b

/-- JS `String.prototype.trim`: strip whitespace from both ends. -/
def jsTrim (s : String) : String :=
  String.mk ((s.data.dropWhile Char.isWhitespace).reverse.dropWhile Char.isWhitespace |>.reverse)

/-- JS `String.prototype.toLowerCase` (ASCII range suffices for the inputs the
code compares against). -/
def jsToLower (s : String) : String :=
  String.mk (s.data.map Char.toLower)

/-- JS template-literal rendering `${v}` of a JSON value (`String(v)`):
strings verbatim, numbers in decimal, arrays joined by commas, plain objects
as "[object Object]". -/
def jsTemplateString : JsVal → String
  | .null => "null"
  | .bool b => cond b "true" "false"
  | .num n => toString n
  | .str s => s
  | .arr xs => String.intercalate "," (xs.attach.map fun x => jsTemplateString x.1)
  | .obj _ => "[object Object]"
decreasing_by
  have := List.sizeOf_lt_of_mem x.2
  simp_wf
  omega

/-- JSON string escaping as performed by `JSON.stringify` (quotes, backslash and
the common control characters; other control characters do not occur in the
inputs considered here). -/
def jsonEscape (s : String) : String :=
  String.join (s.data.map fun c =>
    if c = '"' then "\\\""
    else if c = '\\' then "\\\\"
    else if c = '\n' then "\\n"
    else if c = '\t' then "\\t"
    else if c = '\r' then "\\r"
    else String.singleton c)

def jsonQuote (s : String) : String := "\"" ++ jsonEscape s ++ "\""

mutual

/-- `JSON.stringify(value, null, 2)`: pretty-print with two-space indentation.
The second argument is the indentation prefix of the surrounding context. -/
def jsonStringify : JsVal → String → String
  | .null, _ => "null"
  | .bool b, _ => cond b "true" "false"
  | .num n, _ => toString n
  | .str s, _ => jsonQuote s
  | .arr [], _ => "[]"
  | .arr (x :: xs), ind =>
      "[\n" ++ String.intercalate ",\n" (jsonStringifyItems (x :: xs) (ind ++ "  "))
        ++ "\n" ++ ind ++ "]"
  | .obj [], _ => "\x7b\x7d"
  | .obj (f :: fs), ind =>
      "\x7b\n" ++ String.intercalate ",\n" (jsonStringifyFields (f :: fs) (ind ++ "  "))
        ++ "\n" ++ ind ++ "\x7d"

def jsonStringifyItems : List JsVal → String → List String
  | [], _ => []
  | x :: xs, ind => (ind ++ jsonStringify x ind) :: jsonStringifyItems xs ind

def jsonStringifyFields : List (String × JsVal) → String → List String
  | [], _ => []
  | (k, v) :: fs, ind =>
      (ind ++ jsonQuote k ++ ": " ++ jsonStringify v ind) :: jsonStringifyFields fs ind

end

/-- `formatJson` from the page component: `JSON.stringify(value, null, 2)`
(the `catch` branch is unreachable for values of `JsVal`, which are acyclic). -/
def formatJson (value : JsVal) : String := jsonStringify value ""

/-- `extractErrorSummary` from the page component: pull a JSON-RPC-style error
object out of `data.error` or `data.data.error` and format a display string. -/
def extractErrorSummary (data : JsVal) : Option String :=
  -- `if (!data || typeof data !== "object") return null` : only non-null
  -- objects (and arrays) pass.
  match data with
  | .obj _ | .arr _ =>
    -- `record.error ?? (record.data as ...)?.error`
    let error := jsCoalesce (data.get "error") ((data.get "data").bind (JsVal.get · "error"))
    match error with
    -- `if (!error || typeof error !== "object") return null`
    | some (.obj efs) => some (formatErrorFields (JsVal.obj efs))
    | some (.arr exs) => some (formatErrorFields (JsVal.arr exs))
    | _ => Option.none
  | _ => Option.none
where
  formatErrorFields (e : JsVal) : String :=
    let code : Option Int := match e.get "code" with
      | some (.num n) => some n
      | _ => Option.none
    let message : Option String := match e.get "message" with
      | some (.str s) => some s
      | _ => Option.none
    -- the four-way `if` chain; `message` is used under JS truthiness, so an
    -- empty string behaves like an absent message
    match code, message with
    | some c, some m =>
        if m ≠ "" then "Agent error " ++ toString c ++ ": " ++ m
        else "Agent error " ++ toString c
    | some c, Option.none => "Agent error " ++ toString c
    | Option.none, some m =>
        if m ≠ "" then "Agent error: " ++ m else "Agent returned an error."
    | Option.none, Option.none => "Agent returned an error."

/-- `extractTextFromParts`: the `text` of the first part whose `kind` is
`"text"` and whose `text` is a string (the text may be empty; callers apply
their own truthiness checks). -/
def extractTextFromParts : List JsVal → Option String
  | [] => Option.none
  | p :: ps =>
    match p.get "kind", p.get "text" with
    | some (.str "text"), some (.str t) => some t
    | _, _ => extractTextFromParts ps

/-- Rendering of one artifact inside `extractArtifactsInfo`. -/
def formatArtifactBlock (name text : String) : String :=
  "> 📎 **" ++ name ++ "**\n>\n> ```json\n> "
    ++ String.intercalate "\n> " (text.splitOn "\n") ++ "\n> ```"

/-- `extractArtifactsInfo`: labelled, block-quoted, fenced excerpts of every
artifact that has a non-empty text part. -/
def extractArtifactsInfo (artifacts : List JsVal) : Option String :=
  if artifacts.isEmpty then Option.none
  else
    let artifactParts := artifacts.filterMap fun a =>
      -- `if (!artifactRecord) continue` (falsy artifacts are skipped)
      if ¬ jsTruthy a then Option.none
      else
        let name := match a.get "name" with
          | some (.str s) => s
          | _ => "artifact"
        match a.get "parts" with
        | some (.arr ps) =>
            match extractTextFromParts ps with
            | some t => if t ≠ "" then some (formatArtifactBlock name t) else Option.none
            | Option.none => Option.none
        | _ => Option.none
    if artifactParts.isEmpty then Option.none
    else
      let header := if artifactParts.length = 1 then "**Artifact:**" else "**Artifacts:**"
      some ("\n\n" ++ header ++ "\n\n" ++ String.intercalate "\n\n" artifactParts)

/-- The `kind:"task"` branch of `extractResponseText`: status message, then the
most recent agent history entry, then artifacts, with state-based fallbacks. -/
def extractTaskResponseText (fs : List (String × JsVal)) : String :=
  let status := lookupField fs "status"
  let stateVal := status.bind (JsVal.get · "state")
  let history := lookupField fs "history"
  let artifacts := lookupField fs "artifacts"
  -- 1. `status.message` (under JS truthiness)
  let statusMsgParts : List String :=
    match status.bind (JsVal.get · "message") with
    | some m =>
      if jsTruthy m then
        match m with
        | .str s => [s]
        | .obj _ =>
            match m.get "kind", m.get "parts" with
            | some (.str "message"), some (.arr ps) =>
                match extractTextFromParts ps with
                | some t => if t ≠ "" then [t] else []
                | Option.none => []
            | _, _ => []
        | _ => []
      else []
    | Option.none => []
  -- 2. scan `history` from the end for an agent-authored text part
  let historyParts : List String :=
    if statusMsgParts.isEmpty then
      match history with
      | some (.arr hs) =>
          if ¬ hs.isEmpty then
            match hs.reverse.findSome? (fun msg =>
              match msg.get "role", msg.get "parts" with
              | some (.str "agent"), some (.arr ps) =>
                  match extractTextFromParts ps with
                  | some t => if t ≠ "" then some t else Option.none
                  | Option.none => Option.none
              | _, _ => Option.none) with
            | some t => [t]
            | Option.none => []
          else []
      | _ => []
    else []
  -- 3. artifacts
  let artifactParts : List String :=
    match artifacts with
    | some (.arr as_) =>
        if ¬ as_.isEmpty then
          match extractArtifactsInfo as_ with
          | some info => [info]
          | Option.none => []
        else []
    | _ => []
  let responseParts := (statusMsgParts ++ historyParts) ++ artifactParts
  -- 4. `responseParts.join("")`
  if ¬ responseParts.isEmpty then String.join responseParts
  else
    -- 5. state-based fallback (`switch (state)`)
    match stateVal with
    | some (.str "submitted") => "Task submitted, waiting for agent..."
    | some (.str "working") => "Agent is working on your request..."
    | some (.str "input-required") => "Agent requires additional input."
    | some (.str "completed") => "Task completed."
    | some (.str "failed") => "Task failed."
    | some (.str "canceled") => "Task was canceled."
    | some v =>
        -- `` `Task status: ${state || "unknown"}` ``
        "Task status: " ++ (if jsTruthy v then jsTemplateString v else "unknown")
    | Option.none => "Task status: unknown"

/-- `extractResponseText` from the page component: priority chain producing a
display string from any RPC result shape; never fails. -/
def extractResponseText (data : JsVal) : String :=
  -- 0. a top-level string-valued `error` field wins outright
  match data with
  | .obj fs =>
    match lookupField fs "error" with
    | some (.str s) => s
    | _ => extractResponseTextRest data
  | _ => extractResponseTextRest data
where
  extractResponseTextRest (data : JsVal) : String :=
    -- 1. `extractErrorSummary`; its results are never empty strings, so JS
    -- truthiness on the result coincides with presence
    match extractErrorSummary data with
    | some s => s
    | Option.none =>
      match data with
      | .str s => s
      | .obj fs =>
        match lookupField fs "kind" with
        | some (.str "task") => extractTaskResponseText fs
        | _ =>
          -- `kind === "message"` with a parts array and a non-empty first text
          let msgText : Option String :=
            match lookupField fs "kind", lookupField fs "parts" with
            | some (.str "message"), some (.arr ps) =>
                match extractTextFromParts ps with
                | some t => if t ≠ "" then some t else Option.none
                | Option.none => Option.none
            | _, _ => Option.none
          match msgText with
          | some t => t
          | Option.none =>
            -- legacy `result` fallbacks
            match lookupField fs "result" with
            | some (.str s) => s
            | some (.obj rfs) =>
                -- `result.message ?? result.content ?? result.text`
                let maybeText := jsCoalesce (lookupField rfs "message")
                  (jsCoalesce (lookupField rfs "content") (lookupField rfs "text"))
                match maybeText with
                | some (.str s) => s
                | _ => formatJson data
            | _ => formatJson data
      | _ => formatJson data

/-! ## `src/lib/a2a/schema.ts` -/

structure AgentSkill where
  name : String
  id : Option String := Option.none
  description : Option String := Option.none
  examples : Option (List String) := Option.none
  tags : Option (List String) := Option.none
  inputModes : Option (List String) := Option.none
  outputModes : Option (List String) := Option.none
deriving DecidableEq

structure AgentEndpoint where
  id : String
  name : String
  url : String
  protocol : String
deriving DecidableEq

structure AgentCapabilities where
  streaming : Bool
  pushNotifications : Bool
  stateTransitionHistory : Bool
deriving DecidableEq

structure AgentProvider where
  organization : Option String
  url : Option String
deriving DecidableEq

inductive AuthType where
  | none | bearer | apiKey | custom
deriving DecidableEq

structure AgentAuthConfig where
  type : AuthType
  token : Option String := Option.none
  apiKeyHeader : Option String := Option.none
  apiKeyValue : Option String := Option.none
  customHeaders : Option (List (String × String)) := Option.none
deriving DecidableEq

/-- `AgentCardNormalized`; `raw` keeps the original payload. -/
structure AgentCardNormalized where
  id : String
  name : String
  description : Option String := Option.none
  version : Option String := Option.none
  protocolVersion : Option String := Option.none
  url : Option String := Option.none
  provider : Option AgentProvider := Option.none
  defaultInputModes : Option (List String) := Option.none
  defaultOutputModes : Option (List String) := Option.none
  skills : List AgentSkill := []
  endpoints : List AgentEndpoint := []
  capabilities : AgentCapabilities
  raw : JsVal := JsVal.null
  auth : Option AgentAuthConfig := Option.none

def DEFAULT_PROTOCOL : String := "jsonrpc"

/-- `asRecord`: a non-null, non-array object, else `null`. -/
def asRecord (value : JsVal) : Option (List (String × JsVal)) :=
  match value with
  | .obj fs => some fs
  | _ => Option.none

/-- `asRecord` applied to a possibly-absent property value. -/
def asRecordOpt (value : Option JsVal) : Option (List (String × JsVal)) :=
  value.bind asRecord

/-- `asString`: trimmed string value, or `""` for anything that is not a
string (including an absent property). -/
def asString (value : Option JsVal) : String :=
  match value with
  | some (.str s) => jsTrim s
  | _ => ""

/-- Modelled from the platform: acceptance of the WHATWG `new URL(value)`
constructor used by `validateUrl`, approximated as: the input starts with a
scheme (`alpha (alphanum | + | - | .)* ":"`); for the special network schemes
(http, https, ws, wss, ftp) the authority after any leading slashes must have
a non-empty host component. -/
def validateUrl (value : String) : Bool :=
  match value.data with
  | [] => false
  | c :: rest =>
      if ¬ c.isAlpha then false
      else
        let schemeRest := (c :: rest).takeWhile fun ch =>
          ch.isAlphanum ∨ ch = '+' ∨ ch = '-' ∨ ch = '.'
        let afterScheme := (c :: rest).drop schemeRest.length
        match afterScheme with
        | ':' :: tail =>
            let scheme := jsToLower (String.mk schemeRest)
            if scheme = "http" ∨ scheme = "https" ∨ scheme = "ws" ∨ scheme = "wss" ∨ scheme = "ftp" then
              let hostPart := (tail.dropWhile (· = '/')).takeWhile fun ch => ch ≠ '/' ∧ ch ≠ '?' ∧ ch ≠ '#'
              ¬ hostPart.isEmpty
            else true
        | _ => false

/-- One endpoint candidate produced by `collectEndpointCandidates`: the entry
record plus the protocol hint. -/
structure EndpointCandidate where
  entry : List (String × JsVal)
  protocolHint : String

/-- `collectEndpointCandidates`: an `endpoints` array of objects, or an
`endpoints` object keyed by transport name, then a singular `endpoint` object,
then a root-level `url` synthesized into one candidate. -/
def collectEndpointCandidates (card : List (String × JsVal)) : List EndpointCandidate :=
  let endpoints := lookupField card "endpoints"
  let preferredTransport := jsToLower (asString (lookupField card "preferredTransport"))
  let protocolHint := if preferredTransport ≠ "" then preferredTransport else DEFAULT_PROTOCOL
  let fromEndpoints : List EndpointCandidate :=
    match endpoints with
    | some (.arr es) =>
        es.filterMap fun entry =>
          (asRecord entry).map fun record => EndpointCandidate.mk record protocolHint
    | some (.obj efs) =>
        ["jsonrpc", "rpc", "http"].flatMap fun key =>
          match lookupField efs key with
          | some (.arr vs) =>
              vs.filterMap fun entry =>
                (asRecord entry).map fun record => EndpointCandidate.mk record key
          | _ => []
    | _ => []
  let fromEndpoint : List EndpointCandidate :=
    match asRecordOpt (lookupField card "endpoint") with
    | some endpoint => [EndpointCandidate.mk endpoint protocolHint]
    | Option.none => []
  let rootUrl := asString (lookupField card "url")
  let fromRootUrl : List EndpointCandidate :=
    if rootUrl ≠ "" then
      [EndpointCandidate.mk
        [("url", JsVal.str rootUrl),
         ("name", JsVal.str (let n := asString (lookupField card "name")
                             if n ≠ "" then n else "Agent URL")),
         ("protocol", JsVal.str protocolHint)]
        protocolHint]
    else []
  fromEndpoints ++ fromEndpoint ++ fromRootUrl

/-- Strings of an array value, non-strings filtered out (`filter(typeof === "string")`). -/
def filterStrings (xs : List JsVal) : List String :=
  xs.filterMap fun j => match j with | .str s => some s | _ => Option.none

/-- The per-skill normalisation step of `normalizeAgentCard`. -/
def normalizeSkillEntry (entry : JsVal) : Option AgentSkill :=
  match entry with
  | .str s =>
      let skillName := jsTrim s
      if skillName ≠ "" then some { name := skillName } else Option.none
  | _ =>
    match asRecord entry with
    | Option.none => Option.none
    | some record =>
      let skillName := asString (jsOrVal (lookupField record "name") (lookupField record "title"))
      if skillName = "" then Option.none
      else
        let skillDescription := asString (lookupField record "description")
        let skillId := asString (lookupField record "id")
        let listField (key : String) : Option (List String) :=
          match lookupField record key with
          | some (.arr xs) =>
              let l := filterStrings xs
              if ¬ l.isEmpty then some l else Option.none
          | _ => Option.none
        some
          { name := skillName,
            id := if skillId ≠ "" then some skillId else Option.none,
            description := if skillDescription ≠ "" then some skillDescription else Option.none,
            examples := listField "examples",
            tags := listField "tags",
            inputModes := listField "inputModes",
            outputModes := listField "outputModes" }

/-- The indexed endpoint-candidate loop of `normalizeAgentCard`: returns the
errors and the validated endpoints, in candidate order starting at `index`. -/
def processEndpointCandidates : List EndpointCandidate → Nat → List String × List AgentEndpoint
  | [], _ => ([], [])
  | c :: cs, index =>
      let (restErrors, restEndpoints) := processEndpointCandidates cs (index + 1)
      let url := asString (jsOrVal (lookupField c.entry "url")
        (jsOrVal (lookupField c.entry "href") (lookupField c.entry "endpoint")))
      if url = "" then
        (("Endpoint " ++ toString (index + 1) ++ " is missing a url.") :: restErrors, restEndpoints)
      else if ¬ validateUrl url then
        (("Endpoint " ++ toString (index + 1) ++ " has an invalid url.") :: restErrors, restEndpoints)
      else
        let protocol := asString (jsOrVal (lookupField c.entry "protocol")
          (jsOrVal (lookupField c.entry "type") (lookupField c.entry "transport")))
        let nameValue := asString (jsOrVal (lookupField c.entry "name") (lookupField c.entry "id"))
        (restErrors,
          { id := (if protocol ≠ "" then protocol else c.protocolHint) ++ "-" ++ toString (index + 1),
            name := if nameValue ≠ "" then nameValue else "Endpoint " ++ toString (index + 1),
            url := url,
            protocol :=
              if protocol ≠ "" then protocol
              else if c.protocolHint ≠ "" then c.protocolHint
              else DEFAULT_PROTOCOL } :: restEndpoints)

/-- Result of `normalizeAgentCard`: either a card, or a non-empty error list. -/
structure NormalizeResult where
  card : Option AgentCardNormalized
  errors : List String

/-- `normalizeAgentCard(input, sourceUrl)`: multi-error validation and
canonicalisation of an arbitrary agent-card payload. -/
def normalizeAgentCard (input : JsVal) (sourceUrl : Option String) : NormalizeResult :=
  match asRecord input with
  | Option.none => { card := Option.none, errors := ["Agent card payload must be an object."] }
  | some card =>
    let name := asString (lookupField card "name")
    let description := asString (lookupField card "description")
    let version := asString (lookupField card "version")
    let nameErrors := if name = "" then ["Missing required field: name."] else []
    let skillEntries := match lookupField card "skills" with
      | some (.arr xs) => xs
      | _ => []
    let skills := skillEntries.filterMap normalizeSkillEntry
    let endpointCandidates := collectEndpointCandidates card
    let (endpointErrors, endpoints) := processEndpointCandidates endpointCandidates 0
    let noEndpointErrors := if endpoints.isEmpty then ["No endpoints found in card."] else []
    let errors := nameErrors ++ endpointErrors ++ noEndpointErrors
    if ¬ errors.isEmpty then { card := Option.none, errors := errors }
    else
      let idValue := asString (jsOrVal (lookupField card "id")
        (jsOrVal (lookupField card "agentId")
          (jsOrVal (sourceUrl.map JsVal.str) (some (JsVal.str name)))))
      let protocolVersion := asString (lookupField card "protocolVersion")
      let capabilitiesRecord := asRecordOpt (lookupField card "capabilities")
      let capRead (key : String) : Bool :=
        match capabilitiesRecord.bind (lookupField · key) with
        | some (.bool true) => true
        | _ => false
      let capabilities : AgentCapabilities :=
        { streaming := capRead "streaming",
          pushNotifications := capRead "pushNotifications",
          stateTransitionHistory := capRead "stateTransitionHistory" }
      let providerRecord := asRecordOpt (lookupField card "provider")
      let provider : Option AgentProvider := providerRecord.map fun pr =>
        { organization := (let o := asString (lookupField pr "organization")
                           if o ≠ "" then some o else Option.none),
          url := (let u := asString (lookupField pr "url")
                  if u ≠ "" then some u else Option.none) }
      let modesField (key : String) : Option (List String) :=
        match lookupField card key with
        | some (.arr xs) =>
            let l := filterStrings xs
            if ¬ l.isEmpty then some l else Option.none
        | _ => Option.none
      { card := some
          { id := if idValue ≠ "" then idValue else name,
            name := name,
            description := if description ≠ "" then some description else Option.none,
            version := if version ≠ "" then some version else Option.none,
            protocolVersion := if protocolVersion ≠ "" then some protocolVersion else Option.none,
            url := sourceUrl,
            provider :=
              match provider with
              | some p => if p.organization.isSome ∨ p.url.isSome then some p else Option.none
              | Option.none => Option.none,
            defaultInputModes := modesField "defaultInputModes",
            defaultOutputModes := modesField "defaultOutputModes",
            skills := skills,
            endpoints := endpoints,
            capabilities := capabilities,
            raw := input,
            auth := Option.none },
        errors := [] }

/-- `authNeedsCustomHeaders`: API-key and custom auth cannot be expressed as a
bearer token. -/
def authNeedsCustomHeaders (auth : Option AgentAuthConfig) : Bool :=
  match auth with
  | some a => a.type = AuthType.apiKey ∨ a.type = AuthType.custom
  | Option.none => false

/-- `buildAuthHeaders`: header map for an outbound request, by auth type.
Header names and values are used exactly as configured. -/
def buildAuthHeaders (auth : Option AgentAuthConfig) : List (String × String) :=
  match auth with
  | Option.none => []
  | some a =>
    if a.type = AuthType.none then []
    else
      match a.type with
      | AuthType.bearer =>
          match a.token with
          | some t => if t ≠ "" then [("Authorization", "Bearer " ++ t)] else []
          | Option.none => []
      | AuthType.apiKey =>
          match a.apiKeyHeader, a.apiKeyValue with
          | some h, some v => if h ≠ "" ∧ v ≠ "" then [(h, v)] else []
          | _, _ => []
      | AuthType.custom =>
          match a.customHeaders with
          | some hs => hs
          | Option.none => []
      | AuthType.none => []

/-- `getAuthTokenForSdk`: the bearer token for SDK-style clients; every other
auth type yields the empty string. -/
def getAuthTokenForSdk (auth : Option AgentAuthConfig) : String :=
  match auth with
  | Option.none => ""
  | some a =>
    if a.type = AuthType.none then ""
    else if a.type = AuthType.bearer then
      match a.token with
      | some t => if t ≠ "" then t else ""
      | Option.none => ""
    else ""

/-! ## API route handlers (`src/app/api/agents/rpc/route.ts`,
`src/app/api/agents/stream/route.ts`) — the pre-dispatch decision logic. -/

/-- `isMessageSendParams` (identical in both routes): a non-null object whose
`message` is a non-null object with a string `messageId` and an array `parts`. -/
def isMessageSendParams (value : Option JsVal) : Bool :=
  match value with
  | some v =>
    (match v with
     | .obj _ | .arr _ =>
        (match v.get "message" with
         | some m =>
            (match m with
             | .obj _ | .arr _ =>
                (match m.get "messageId" with
                 | some (.str _) => true
                 | _ => false)
                && (match m.get "parts" with
                    | some (.arr _) => true
                    | _ => false)
             | _ => false)
         | Option.none => false)
     | _ => false)
  | Option.none => false

/-- The request body of the RPC route after `request.json()` (the `auth` field
is a structural cast in the source, so it is kept typed here). -/
structure RpcRequestBody where
  cardUrl : Option JsVal := Option.none
  endpointUrl : Option JsVal := Option.none
  method : Option JsVal := Option.none
  params : Option JsVal := Option.none
  streaming : Option Bool := Option.none
  auth : Option AgentAuthConfig := Option.none

/-- What the RPC route handler decides to do before any network dispatch. -/
inductive RpcDecision where
  | rejectMissingUrl
  | rejectMethod (method : String)
  | rejectParams
  /-- `directJsonRpcCall(endpointUrl, method, params, authHeaders)` with
  `Accept: application/json` — a single non-streaming call. -/
  | directCall (endpointUrl method : String) (authHeaders : List (String × String))
  /-- SDK path: card fetched with the bearer token; whether SSE is consumed is
  decided later from `requestStreaming` and the fetched card. -/
  | sdkCall (cardUrl authToken : String) (requestStreaming : Bool)
deriving DecidableEq

/-- The `POST` handler of `src/app/api/agents/rpc/route.ts` up to its first
network dispatch. -/
def rpcRouteDecision (body : RpcRequestBody) : RpcDecision :=
  let cardUrl := match body.cardUrl with | some (.str s) => s | _ => ""
  let endpointUrl := match body.endpointUrl with | some (.str s) => s | _ => ""
  let method := match body.method with | some (.str s) => s | _ => "message/send"
  let useStreaming := body.streaming.getD true
  let authHeaders := buildAuthHeaders body.auth
  if cardUrl = "" ∧ endpointUrl = "" then RpcDecision.rejectMissingUrl
  else if ¬ (method = "message/send" ∨ method = "message/stream") then
    RpcDecision.rejectMethod method
  else if ¬ isMessageSendParams body.params then RpcDecision.rejectParams
  else
    let requestStreaming := if method = "message/stream" then true else useStreaming
    if cardUrl = "" ∧ endpointUrl ≠ "" then
      RpcDecision.directCall endpointUrl method authHeaders
    else
      RpcDecision.sdkCall cardUrl (getAuthTokenForSdk body.auth) requestStreaming

/-- Line 137 of the RPC route: on the SDK path, SSE is consumed only when
streaming was requested AND the fetched card supports it; otherwise a plain
`sendMessage` round trip is made. -/
def rpcSdkUsesStreaming (requestStreaming supportsStreaming : Bool) : Bool :=
  requestStreaming && supportsStreaming

/-- The request body of the stream route after `request.json()`. -/
structure StreamRequestBody where
  cardUrl : Option JsVal := Option.none
  endpointUrl : Option JsVal := Option.none
  method : Option JsVal := Option.none
  params : Option JsVal := Option.none
  auth : Option AgentAuthConfig := Option.none

/-- What the stream route handler decides to do before any network dispatch. -/
inductive StreamDecision where
  /-- Auth is configured but `buildAuthHeaders` produced no headers: 400 with a
  guidance message, before any request is sent. -/
  | rejectAuth
  | rejectMissingUrl
  | rejectParams
  /-- `directStreamingCall` to the endpoint with `Accept: text/event-stream`. -/
  | directStream (endpointUrl method : String) (authHeaders : List (String × String))
  /-- SDK path from the card URL. -/
  | sdkStream (cardUrl authToken : String)
deriving DecidableEq

/-- The `POST` handler of `src/app/api/agents/stream/route.ts` up to its first
network dispatch (the auth guard of lines 103-113 comes first). -/
def streamRouteDecision (body : StreamRequestBody) : StreamDecision :=
  let cardUrl := match body.cardUrl with | some (.str s) => s | _ => ""
  let endpointUrl := match body.endpointUrl with | some (.str s) => s | _ => ""
  let method := match body.method with
    | some (.str s) => if s ≠ "" then s else "message/stream"
    | _ => "message/stream"
  let authHeaders := buildAuthHeaders body.auth
  let hasAuth : Bool := match body.auth with
    | some a => !(a.type == AuthType.none)
    | Option.none => false
  if hasAuth && authHeaders.isEmpty then StreamDecision.rejectAuth
  else if cardUrl = "" ∧ endpointUrl = "" then StreamDecision.rejectMissingUrl
  else if ¬ isMessageSendParams body.params then StreamDecision.rejectParams
  else
    let useDirect := ((cardUrl == "") && !(endpointUrl == "")) || (!(endpointUrl == "") && hasAuth)
    if useDirect then StreamDecision.directStream endpointUrl method authHeaders
    else StreamDecision.sdkStream cardUrl (getAuthTokenForSdk body.auth)

/-! ## Client page component: session driver and per-agent state store. -/

inductive ChatRole where
  | user | assistant
deriving DecidableEq

inductive MessageStatus where
  | pending | streaming | complete | error
deriving DecidableEq

structure ChatMessage where
  id : String
  role : ChatRole
  content : String
  timestamp : String
  status : Option MessageStatus := Option.none
  error : Option String := Option.none
  taskId : Option String := Option.none
  taskState : Option String := Option.none
deriving DecidableEq

structure RpcLogEntry where
  id : String
  endpointUrl : String
  requestPayload : JsVal := JsVal.null
  requestHeaders : Option (List (String × String)) := Option.none
  responsePayload : Option JsVal := Option.none
  status : Option Int := Option.none
  startedAt : String
  completedAt : Option String := Option.none
  durationMs : Option Int := Option.none

structure TrackedTask where
  taskId : String
  contextId : Option String := Option.none
  state : String
  lastUpdated : String
  createdAt : String
  message : Option String := Option.none
deriving DecidableEq

def DEFAULT_METHOD : String := "message/send"

/-- Transport chosen by `handleSendMessage` (line 816): the SSE branch posts to
`/api/agents/stream`, the other branch makes one non-streaming call to
`/api/agents/rpc`. -/
def clientUsesSse (method : String) (supportsStreaming : Bool) : Bool :=
  let forceStreaming := method = "message/stream"
  let useStreaming := forceStreaming || supportsStreaming
  useStreaming && supportsStreaming

/-- The `Accept` request header recorded for the log entry (line 797). -/
def clientAcceptHeader (method : String) (supportsStreaming : Bool) : String :=
  let forceStreaming := method = "message/stream"
  let useStreaming := forceStreaming || supportsStreaming
  if useStreaming && supportsStreaming then "text/event-stream" else "application/json"

/-- The `message` object of the outgoing JSON-RPC params (lines 743-758). -/
structure MessagePayload where
  messageId : String
  role : String
  kind : String
  text : String
  contextId : Option String
deriving DecidableEq

/-- The outgoing `params` (lines 760-768): `id` is included exactly when a
task id is currently active for the agent (JS truthiness on the stored id). -/
structure RequestParams where
  message : MessagePayload
  id : Option String
deriving DecidableEq

/-- The JSON-RPC 2.0 envelope (lines 769-774).  The fresh random ids produced
by `crypto.randomUUID()` are passed in as parameters. -/
structure RpcPayload where
  jsonrpc : String
  id : String
  method : String
  params : RequestParams
deriving DecidableEq

/-- Envelope construction of `handleSendMessage` (lines 743-774). -/
def buildSendPayload (messageText freshMessageId freshRequestId : String)
    (existingContextId existingTaskId : Option String) (method : String) : RpcPayload :=
  { jsonrpc := "2.0",
    id := freshRequestId,
    method := method,
    params :=
      { message :=
          { messageId := freshMessageId,
            role := "user",
            kind := "message",
            text := messageText,
            contextId :=
              match existingContextId with
              | some c => if c ≠ "" then some c else Option.none
              | Option.none => Option.none },
        id :=
          match existingTaskId with
          | some t => if t ≠ "" then some t else Option.none
          | Option.none => Option.none } }

/-- Per-frame / per-response active-task bookkeeping (lines 937-952 of the
streaming loop; the non-streaming path at lines 1214-1230 is identical): set
the agent's active task id on `input-required`, clear it on a terminal state. -/
def applyTaskTransition (taskIdByAgent : String → Option String) (agentId : String)
    (eventTaskId : Option String) (eventState : Option String) : String → Option String :=
  let taskIdTruthy := match eventTaskId with
    | some t => t ≠ ""
    | Option.none => false
  if taskIdTruthy && (eventState == some "input-required") then
    fun k => if k = agentId then eventTaskId else taskIdByAgent k
  else if eventState = some "completed" ∨ eventState = some "failed"
      ∨ eventState = some "canceled" then
    fun k => if k = agentId then Option.none else taskIdByAgent k
  else taskIdByAgent

/-- One observation of a task (from a streaming frame, a non-streaming
response, or an explicit `tasks/get` fetch): the fields the upsert writes. -/
structure TaskObs where
  taskId : String
  contextId : Option String := Option.none
  state : String
  now : String
  message : Option String := Option.none

/-- The in-place update of the first entry matching the observation's task id
(`findIndex` + `updated[existingTaskIndex] = taskData`), preserving that
entry's `createdAt`; `none` when no entry matches. -/
def updateFirstTask : List TrackedTask → TaskObs → Option (List TrackedTask)
  | [], _ => Option.none
  | t :: ts, o =>
      if t.taskId = o.taskId then
        some ({ taskId := o.taskId, contextId := o.contextId, state := o.state,
                lastUpdated := o.now, createdAt := t.createdAt, message := o.message } :: ts)
      else (updateFirstTask ts o).map (t :: ·)

/-- The tracked-task upsert, identical at its three call sites (streaming
frames, non-streaming responses, `handleFetchTask`): update the existing entry
keeping its `createdAt`, or add a new entry at the beginning with
`createdAt := now`. -/
def upsertTrackedTask (tasks : List TrackedTask) (o : TaskObs) : List TrackedTask :=
  match updateFirstTask tasks o with
  | some updated => updated
  | Option.none =>
      { taskId := o.taskId, contextId := o.contextId, state := o.state,
        lastUpdated := o.now, createdAt := o.now, message := o.message } :: tasks

/-- First tracked entry for a task id (`findIndex`-style first match). -/
def lookupTask : List TrackedTask → String → Option TrackedTask
  | [], _ => Option.none
  | t :: ts, tid => if t.taskId = tid then some t else lookupTask ts tid

/-- Effect of `handleSendMessage` on the selected agent's message list up to
the dispatch of the request (lines 704-788): after the validation guards, the
user's message is unconditionally appended.  `endpointUrl` is the resolved
endpoint of lines 712-714 (`override.trim() || baseEndpoint || undefined`). -/
def handleSendMessagePrefix (endpointUrl : Option String) (method : String)
    (messages : List ChatMessage) (messageText freshUserId timestamp : String) :
    List ChatMessage :=
  if jsTrim messageText = "" then messages
  else
    let endpointTruthy := match endpointUrl with
      | some u => u ≠ ""
      | Option.none => false
    if !endpointTruthy then messages
    else if method = "tasks/get" then messages
    else if ¬ (method = "message/send" ∨ method = "message/stream" ∨ method = "tasks/get") then
      messages
    else
      messages ++ [{ id := freshUserId, role := ChatRole.user, content := messageText,
                     timestamp := timestamp, status := some MessageStatus.complete }]

/-- The backwards scan of `handleRetry` (lines 1481-1487): content of the
nearest user message strictly before the error index, else `""`. -/
def findPrevUserContent (messages : List ChatMessage) (errorIndex : Nat) : String :=
  match (messages.take errorIndex).reverse.find? (fun m => m.role = ChatRole.user) with
  | some m => m.content
  | Option.none => ""

/-- `handleRetry` (lines 1472-1500) composed with the message-history effect of
the `handleSendMessage` call it makes: remove the failed assistant message,
then re-send the originating user text (which appends a fresh user message). -/
def handleRetryMessages (endpointUrl : Option String) (method : String)
    (messages : List ChatMessage) (errorMessageId freshUserId timestamp : String) :
    List ChatMessage :=
  match messages.findIdx? (fun m => m.id = errorMessageId) with
  | Option.none => messages
  | some errorIndex =>
      let userMessageContent := findPrevUserContent messages errorIndex
      if userMessageContent = "" then messages
      else
        let removed := messages.filter (fun m => m.id ≠ errorMessageId)
        handleSendMessagePrefix endpointUrl method removed userMessageContent freshUserId timestamp

/-- The page component's per-agent state: parallel mappings keyed by agent id
(the React `useState` records), plus the agent list and selection. -/
structure AppState where
  agents : List AgentCardNormalized
  selectedAgentId : Option String
  messagesByAgent : String → Option (List ChatMessage)
  rpcLogsByAgent : String → Option (List RpcLogEntry)
  endpointByAgent : String → Option String
  endpointOverrideByAgent : String → Option String
  methodByAgent : String → Option String
  contextIdByAgent : String → Option String
  taskIdByAgent : String → Option String
  authByAgent : String → Option AgentAuthConfig
  trackedTasksByAgent : String → Option (List TrackedTask)

/-- `delete newState[agentId]` on one of the record maps. -/
def mapDelete {α : Type} (m : String → Option α) (key : String) : String → Option α :=
  fun k => if k = key then Option.none else m k

/-- `handleDeleteAgent` (lines 1330-1380): remove the agent and clean up the
related state maps; `endpointOverrideByAgent` is not among the maps the
handler touches. -/
def handleDeleteAgent (s : AppState) (agentId : String) : AppState :=
  { agents := s.agents.filter (fun a => a.id ≠ agentId),
    messagesByAgent := mapDelete s.messagesByAgent agentId,
    rpcLogsByAgent := mapDelete s.rpcLogsByAgent agentId,
    endpointByAgent := mapDelete s.endpointByAgent agentId,
    methodByAgent := mapDelete s.methodByAgent agentId,
    contextIdByAgent := mapDelete s.contextIdByAgent agentId,
    taskIdByAgent := mapDelete s.taskIdByAgent agentId,
    authByAgent := mapDelete s.authByAgent agentId,
    trackedTasksByAgent := mapDelete s.trackedTasksByAgent agentId,
    endpointOverrideByAgent := s.endpointOverrideByAgent,
    selectedAgentId :=
      if s.selectedAgentId = some agentId then Option.none else s.selectedAgentId }

/-- The state effect of a successful registration in `handleRegister`
(lines 679-696): the card replaces any agent with the same id and moves to the
front, the new agent is selected, and endpoint/method selections default only
when absent (`prev[card.id] ?? card.endpoints[0]?.url ?? ""` and
`prev[card.id] ?? DEFAULT_METHOD`). -/
def handleRegisterApply (s : AppState) (card : AgentCardNormalized) : AppState :=
  { s with
    agents := card :: s.agents.filter (fun a => a.id ≠ card.id),
    selectedAgentId := some card.id,
    endpointByAgent := fun k =>
      if k = card.id then
        some ((s.endpointByAgent card.id).getD
          (((card.endpoints.head?).map AgentEndpoint.url).getD ""))
      else s.endpointByAgent k,
    methodByAgent := fun k =>
      if k = card.id then some ((s.methodByAgent card.id).getD DEFAULT_METHOD)
      else s.methodByAgent k }

/-! ## Helper lemmas about the tracked-task upsert. -/

lemma lookupTask_none_of_updateFirstTask_none (tasks : List TrackedTask) (o : TaskObs)
    (h : updateFirstTask tasks o = Option.none) : lookupTask tasks o.taskId = Option.none := by
  induction tasks with
  | nil => rfl
  | cons t ts ih =>
    by_cases ht : t.taskId = o.taskId
    · simp [updateFirstTask, ht] at h
    · simp only [updateFirstTask, if_neg ht, Option.map_eq_none'] at h
      simp only [lookupTask, if_neg ht]
      exact ih h

lemma upsertTrackedTask_of_updateFirstTask_some (tasks : List TrackedTask) (o : TaskObs)
    (l : List TrackedTask) (h : updateFirstTask tasks o = some l) :
    upsertTrackedTask tasks o = l := by
  simp [upsertTrackedTask, h]

lemma lookupTask_upsert_self (tasks : List TrackedTask) (o : TaskObs) :
    lookupTask (upsertTrackedTask tasks o) o.taskId =
      some { taskId := o.taskId, contextId := o.contextId, state := o.state,
             lastUpdated := o.now,
             createdAt :=
               match lookupTask tasks o.taskId with
               | some e => e.createdAt
               | Option.none => o.now,
             message := o.message } := by
  induction tasks with
  | nil => simp [upsertTrackedTask, updateFirstTask, lookupTask]
  | cons t ts ih =>
    by_cases ht : t.taskId = o.taskId
    · simp [upsertTrackedTask, updateFirstTask, ht, lookupTask]
    · cases hu : updateFirstTask ts o with
      | none =>
          have hnone := lookupTask_none_of_updateFirstTask_none ts o hu
          simp [upsertTrackedTask, updateFirstTask, if_neg ht, hu, lookupTask, hnone]
      | some l =>
          have hl : upsertTrackedTask ts o = l := upsertTrackedTask_of_updateFirstTask_some ts o l hu
          have := hl ▸ ih
          simp [upsertTrackedTask, updateFirstTask, if_neg ht, hu, lookupTask, this]

lemma lookupTask_upsert_other (tasks : List TrackedTask) (o : TaskObs) (tid : String)
    (h : tid ≠ o.taskId) :
    lookupTask (upsertTrackedTask tasks o) tid = lookupTask tasks tid := by
  have h' : o.taskId ≠ tid := fun e => h e.symm
  induction tasks with
  | nil => simp [upsertTrackedTask, updateFirstTask, lookupTask, if_neg h']
  | cons t ts ih =>
    by_cases ht : t.taskId = o.taskId
    · have htid : t.taskId ≠ tid := ht ▸ h'
      simp [upsertTrackedTask, updateFirstTask, ht, lookupTask, if_neg h', if_neg htid]
    · cases hu : updateFirstTask ts o with
      | none =>
          simp [upsertTrackedTask, updateFirstTask, if_neg ht, hu, lookupTask, if_neg h']
      | some l =>
          have hl : upsertTrackedTask ts o = l := upsertTrackedTask_of_updateFirstTask_some ts o l hu
          have := hl ▸ ih
          simp [upsertTrackedTask, updateFirstTask, if_neg ht, hu, lookupTask, this]

lemma createdAt_preserved_foldl (os : List TaskObs) :
    ∀ (T : List TrackedTask) (tid c : String),
      (lookupTask T tid).map TrackedTask.createdAt = some c →
      (lookupTask (os.foldl upsertTrackedTask T) tid).map TrackedTask.createdAt = some c := by
  induction os with
  | nil => intro T tid c h; simpa using h
  | cons o os ih =>
    intro T tid c h
    simp only [List.foldl_cons]
    apply ih
    by_cases htid : tid = o.taskId
    · subst htid
      rw [lookupTask_upsert_self]
      cases hl : lookupTask T o.taskId with
      | none => rw [hl] at h; simp at h
      | some e =>
          rw [hl] at h
          simp only [Option.map_some', Option.some.injEq] at h
          simp [hl, h]
    · rw [lookupTask_upsert_other _ _ _ htid]
      exact h

/-! ## Concrete fixtures used by the claim theorems. -/

def sampleCard : AgentCardNormalized :=
  { id := "agent-1", name := "Sample",
    endpoints := [{ id := "jsonrpc-1", name := "Endpoint 1", url := "https://x/a", protocol := "jsonrpc" }],
    capabilities := { streaming := false, pushNotifications := false, stateTransitionHistory := false } }

/-- A fully-populated per-agent state for agent `agent-1`, with an endpoint
override set and the agent selected. -/
def sampleState : AppState :=
  { agents := [sampleCard],
    selectedAgentId := some "agent-1",
    messagesByAgent := fun k =>
      if k = "agent-1" then
        some [{ id := "u1", role := ChatRole.user, content := "hi", timestamp := "t0",
                status := some MessageStatus.complete }]
      else Option.none,
    rpcLogsByAgent := fun k =>
      if k = "agent-1" then some [{ id := "l1", endpointUrl := "https://x/a", startedAt := "t0" }]
      else Option.none,
    endpointByAgent := fun k => if k = "agent-1" then some "https://x/a" else Option.none,
    endpointOverrideByAgent := fun k => if k = "agent-1" then some "https://x/custom" else Option.none,
    methodByAgent := fun k => if k = "agent-1" then some "message/send" else Option.none,
    contextIdByAgent := fun k => if k = "agent-1" then some "ctx-1" else Option.none,
    taskIdByAgent := fun k => if k = "agent-1" then some "task-1" else Option.none,
    authByAgent := fun k =>
      if k = "agent-1" then some { type := AuthType.bearer, token := some "tok" } else Option.none,
    trackedTasksByAgent := fun k =>
      if k = "agent-1" then
        some [{ taskId := "task-1", state := "working", lastUpdated := "t0", createdAt := "t0" }]
      else Option.none }

/-- The Scenario A card: `{"name":"Echo","url":"https://x/a","capabilities":{"streaming":false}}`. -/
def scenarioACard : JsVal :=
  JsVal.obj [("name", JsVal.str "Echo"), ("url", JsVal.str "https://x/a"),
             ("capabilities", JsVal.obj [("streaming", JsVal.bool false)])]

/-- An auth configuration of type `apiKey` whose value is empty, so
`buildAuthHeaders` produces no headers. -/
def misconfiguredApiKeyAuth : AgentAuthConfig :=
  { type := AuthType.apiKey, apiKeyHeader := some "X-API-Key", apiKeyValue := some "" }

/-- A well-formed `params` object accepted by `isMessageSendParams`. -/
def wellFormedParams : JsVal :=
  JsVal.obj [("message", JsVal.obj
    [("messageId", JsVal.str "m1"),
     ("parts", JsVal.arr [JsVal.obj [("kind", JsVal.str "text"), ("text", JsVal.str "hi")]])])]

/-! ## Claim theorems. -/

/-- C1, counterexample: with the selected method `message/stream` and an agent
card declaring `streaming:false`, the claim's antecedent holds (the method is
`message/stream`), yet the client does NOT take the SSE path — it makes the
single non-streaming call, so SSE is not "used exactly when the method is
message/stream or the card declares streaming". -/
theorem c1_counterexample :
    clientUsesSse "message/stream" false = false
    ∧ ("message/stream" = "message/stream" ∨ false = true) := by
  exact ⟨rfl, Or.inl rfl⟩

/-- C1, amended: the client takes the SSE transport exactly when the agent
card's `capabilities.streaming` flag is true, independently of the selected
method; the recorded `Accept` header matches; and on the server's RPC route
the SDK path never consumes SSE for a card without streaming support, whatever
streaming was requested. -/
theorem c1_transport_selection :
    ∀ (method : String) (supportsStreaming : Bool),
      clientUsesSse method supportsStreaming = supportsStreaming
      ∧ clientAcceptHeader method supportsStreaming
          = (if supportsStreaming then "text/event-stream" else "application/json")
      ∧ ∀ requestStreaming, rpcSdkUsesStreaming requestStreaming false = false := by
  intro method s
  refine ⟨?_, ?_, ?_⟩
  · cases s <;> simp [clientUsesSse]
  · cases s <;> simp [clientAcceptHeader]
  · intro r; cases r <;> rfl

/-- C2, code bug: deleting agent `agent-1` clears the eight state maps the
handler touches and the selection, but the endpoint-override entry for the
deleted agent survives — `handleDeleteAgent` never touches
`endpointOverrideByAgent`, contradicting the teardown invariant (and the
handler's own "clean up all related state" intent). -/
theorem c2_delete_agent_override_survives :
    (handleDeleteAgent sampleState "agent-1").messagesByAgent "agent-1" = Option.none
    ∧ (handleDeleteAgent sampleState "agent-1").rpcLogsByAgent "agent-1" = Option.none
    ∧ (handleDeleteAgent sampleState "agent-1").endpointByAgent "agent-1" = Option.none
    ∧ (handleDeleteAgent sampleState "agent-1").methodByAgent "agent-1" = Option.none
    ∧ (handleDeleteAgent sampleState "agent-1").contextIdByAgent "agent-1" = Option.none
    ∧ (handleDeleteAgent sampleState "agent-1").taskIdByAgent "agent-1" = Option.none
    ∧ (handleDeleteAgent sampleState "agent-1").authByAgent "agent-1" = Option.none
    ∧ (handleDeleteAgent sampleState "agent-1").trackedTasksByAgent "agent-1" = Option.none
    ∧ (handleDeleteAgent sampleState "agent-1").selectedAgentId = Option.none
    ∧ (handleDeleteAgent sampleState "agent-1").agents = []
    ∧ (handleDeleteAgent sampleState "agent-1").endpointOverrideByAgent "agent-1"
        = some "https://x/custom" := by
  refine ⟨rfl, rfl, rfl, rfl, rfl, rfl, rfl, rfl, rfl, rfl, rfl⟩

/-- The conversation on which the retry bug is demonstrated: one user message
and one failed assistant message. -/
def retryConversation : List ChatMessage :=
  [{ id := "u1", role := ChatRole.user, content := "hi", timestamp := "t0",
     status := some MessageStatus.complete },
   { id := "a1", role := ChatRole.assistant, content := "Request failed: boom", timestamp := "t1",
     status := some MessageStatus.error, error := some "boom" }]

/-- C3, code bug: retrying the failed assistant message `a1` removes it and
replays the user text "hi", but the replay goes through `handleSendMessage`,
which unconditionally appends a fresh user message — the history ends with TWO
copies of the originating user message, contradicting the no-duplicate rule
(and the retry handler's own comment that it must "send without adding another
user message"). -/
theorem c3_retry_duplicates_user_message :
    handleRetryMessages (some "https://x/a") "message/send" retryConversation "a1" "u2" "t2"
      = [{ id := "u1", role := ChatRole.user, content := "hi", timestamp := "t0",
           status := some MessageStatus.complete },
         { id := "u2", role := ChatRole.user, content := "hi", timestamp := "t2",
           status := some MessageStatus.complete }]
    ∧ (handleRetryMessages (some "https://x/a") "message/send" retryConversation "a1" "u2" "t2").countP
        (fun m => m.role == ChatRole.user && m.content == "hi") = 2 := by
  exact ⟨rfl, rfl⟩

/-- C4: for a frame or response carrying a (non-empty) task id and a status
state, `input-required` stores the task id for the agent and the next send
includes it as `params.id`; a terminal state (`completed`/`failed`/`canceled`)
clears the stored id and the next send carries no `params.id`. -/
theorem c4_active_task_lifecycle (taskIdByAgent : String → Option String)
    (agentId tid state : String) (htid : tid ≠ "") :
    (state = "input-required" →
      applyTaskTransition taskIdByAgent agentId (some tid) (some state) agentId = some tid
      ∧ ∀ text mid rid ctx,
          (buildSendPayload text mid rid ctx
            (applyTaskTransition taskIdByAgent agentId (some tid) (some state) agentId)
            "message/send").params.id = some tid)
    ∧ ((state = "completed" ∨ state = "failed" ∨ state = "canceled") →
      applyTaskTransition taskIdByAgent agentId (some tid) (some state) agentId = Option.none
      ∧ ∀ text mid rid ctx,
          (buildSendPayload text mid rid ctx
            (applyTaskTransition taskIdByAgent agentId (some tid) (some state) agentId)
            "message/send").params.id = Option.none) := by
  constructor
  · intro hs
    subst hs
    have h1 : applyTaskTransition taskIdByAgent agentId (some tid) (some "input-required") agentId
        = some tid := by
      simp [applyTaskTransition, htid]
    refine ⟨h1, ?_⟩
    intro text mid rid ctx
    rw [h1]
    simp [buildSendPayload, htid]
  · intro hs
    have h2 : applyTaskTransition taskIdByAgent agentId (some tid) (some state) agentId
        = Option.none := by
      rcases hs with h | h | h <;> subst h <;> simp [applyTaskTransition]
    refine ⟨h2, ?_⟩
    intro text mid rid ctx
    rw [h2]
    simp [buildSendPayload]

/-- C4, witness: an `input-required` frame for task `t1` stores the id. -/
theorem c4_active_task_lifecycle_witness :
    applyTaskTransition (fun _ => Option.none) "agent-1" (some "t1") (some "input-required") "agent-1"
      = some "t1" := by
  exact (((c4_active_task_lifecycle (fun _ => Option.none) "agent-1" "t1" "input-required"
    (by decide)).1) rfl).1

/-- C5: across any sequence of tracked-task upserts, the entry for a task id
keeps the `createdAt` assigned at its first observation, while every later
observation of the same id overwrites `state`, `lastUpdated`, `contextId` and
`message` with the observed values. -/
theorem c5_created_at_fixed_fields_overwritten (tasks : List TrackedTask) (o : TaskObs)
    (os : List TaskObs) (hfirst : lookupTask tasks o.taskId = Option.none) :
    ((lookupTask (os.foldl upsertTrackedTask (upsertTrackedTask tasks o)) o.taskId).map
        TrackedTask.createdAt = some o.now)
    ∧ (∀ (later : List TrackedTask) (o2 : TaskObs), o2.taskId = o.taskId →
        ∃ c, lookupTask (upsertTrackedTask later o2) o.taskId =
          some { taskId := o.taskId, contextId := o2.contextId, state := o2.state,
                 lastUpdated := o2.now, createdAt := c, message := o2.message }) := by
  constructor
  · apply createdAt_preserved_foldl
    rw [lookupTask_upsert_self, hfirst]
    rfl
  · intro later o2 h2
    refine ⟨match lookupTask later o2.taskId with
            | some e => e.createdAt
            | Option.none => o2.now, ?_⟩
    rw [← h2, lookupTask_upsert_self]

/-- C5, witness: a first observation at time `T0` followed by a later
observation of the same task keeps `createdAt = "T0"`. -/
theorem c5_created_at_fixed_witness :
    (lookupTask
        (([{ taskId := "t1", contextId := some "c1", state := "completed", now := "T1",
             message := Option.none }] : List TaskObs).foldl upsertTrackedTask
          (upsertTrackedTask []
            { taskId := "t1", contextId := some "c0", state := "working", now := "T0",
              message := Option.none }))
        "t1").map TrackedTask.createdAt = some "T0" := by
  exact (c5_created_at_fixed_fields_overwritten []
    { taskId := "t1", contextId := some "c0", state := "working", now := "T0",
      message := Option.none }
    [{ taskId := "t1", contextId := some "c1", state := "completed", now := "T1",
       message := Option.none }] rfl).1

/-- The fields of a JSON-RPC error object with an optional numeric `code` and
an optional string `message`. -/
def errorFieldsJson (code : Option Int) (message : Option String) : List (String × JsVal) :=
  (match code with | some c => [("code", JsVal.num c)] | Option.none => [])
    ++ (match message with | some m => [("message", JsVal.str m)] | Option.none => [])

/-- A payload with a top-level `error` object. -/
def mkTopLevelError (code : Option Int) (message : Option String) : JsVal :=
  JsVal.obj [("error", JsVal.obj (errorFieldsJson code message))]

/-- A payload with an error object nested under `data.error`. -/
def mkNestedDataError (code : Option Int) (message : Option String) : JsVal :=
  JsVal.obj [("data", JsVal.obj [("error", JsVal.obj (errorFieldsJson code message))])]

/-- Modelled from the amended claim: the display string for an error object
with the given optional code and optional message, where an empty-string
message is treated as absent. -/
def expectedErrorSummary (code : Option Int) (message : Option String) : String :=
  match code, message with
  | some c, some m =>
      if m ≠ "" then "Agent error " ++ toString c ++ ": " ++ m
      else "Agent error " ++ toString c
  | some c, Option.none => "Agent error " ++ toString c
  | Option.none, some m =>
      if m ≠ "" then "Agent error: " ++ m else "Agent returned an error."
  | Option.none, Option.none => "Agent returned an error."

/-- C6, counterexample: for `{"error":{"code":-1,"message":""}}` both a numeric
code and a string message are present, yet the extracted string is
"Agent error -1" — the empty message is treated as absent, not formatted as
"Agent error -1: ". -/
theorem c6_counterexample :
    extractErrorSummary
        (JsVal.obj [("error", JsVal.obj [("code", JsVal.num (-1)), ("message", JsVal.str "")])])
      = some "Agent error -1"
    ∧ "Agent error -1" ≠ "Agent error -1: " := by
  exact ⟨rfl, by decide⟩

/-- C6, amended: for every error object under a top-level `error` field or
nested under `data.error`, the extracted string is
"Agent error <code>: <message>" when a numeric code and a NON-EMPTY string
message are both present, "Agent error: <message>" when only a non-empty
message is present, "Agent error <code>" when a code is present but the
message is absent or empty, and "Agent returned an error." otherwise (an
empty-string message behaves as an absent one). -/
theorem c6_error_summary_formats :
    ∀ (code : Option Int) (message : Option String),
      extractErrorSummary (mkTopLevelError code message)
          = some (expectedErrorSummary code message)
      ∧ extractErrorSummary (mkNestedDataError code message)
          = some (expectedErrorSummary code message) := by
  intro code message
  cases code <;> cases message <;>
    simp [mkTopLevelError, mkNestedDataError, errorFieldsJson, extractErrorSummary,
      extractErrorSummary.formatErrorFields, expectedErrorSummary, JsVal.get, lookupField,
      jsCoalesce]

/-- C7, counterexample: normalizing the Scenario A card yields one endpoint
whose name is "Echo" (the card's own name), not "Agent URL" as the claim
states — the "Agent URL" fallback applies only when the card has no usable
name. -/
theorem c7_counterexample :
    ((normalizeAgentCard scenarioACard Option.none).card.map
        fun c => c.endpoints.map AgentEndpoint.name) = some ["Echo"]
    ∧ ¬ (["Echo"] = ["Agent URL"]) := by
  exact ⟨rfl, by decide⟩

/-- C7, amended: normalizing the Scenario A card succeeds with no errors and
yields exactly one endpoint whose url is the root `url` value, whose name is
the card's name "Echo" ("Agent URL" is used only when the card name is empty),
with `capabilities.streaming = false`. -/
theorem c7_scenario_a_normalization :
    normalizeAgentCard scenarioACard Option.none =
      { card := some
          { id := "Echo", name := "Echo",
            endpoints := [{ id := "jsonrpc-1", name := "Echo", url := "https://x/a",
                            protocol := "jsonrpc" }],
            capabilities := { streaming := false, pushNotifications := false,
                              stateTransitionHistory := false },
            raw := scenarioACard },
        errors := [] } := by
  rfl

/-- C8, counterexample: a request to the non-streaming RPC route with an
`apiKey` auth whose value is empty (so `buildAuthHeaders` is empty) is NOT
rejected — the route dispatches a direct JSON-RPC call with an empty auth
header map, so the guard does not hold on the non-streaming path. -/
theorem c8_counterexample :
    buildAuthHeaders (some misconfiguredApiKeyAuth) = []
    ∧ rpcRouteDecision
        { endpointUrl := some (JsVal.str "https://x/a"),
          method := some (JsVal.str "message/send"),
          params := some wellFormedParams,
          auth := some misconfiguredApiKeyAuth }
        = RpcDecision.directCall "https://x/a" "message/send" [] := by
  exact ⟨rfl, rfl⟩

/-- C8, amended: the guard holds on the streaming route only: every
streaming-route request whose auth type is `apiKey` or `custom` but whose
built header map is empty is rejected with the guidance message before any
dispatch. -/
theorem c8_stream_route_auth_guard (body : StreamRequestBody) (a : AgentAuthConfig)
    (hauth : body.auth = some a)
    (htype : a.type = AuthType.apiKey ∨ a.type = AuthType.custom)
    (hempty : buildAuthHeaders body.auth = []) :
    streamRouteDecision body = StreamDecision.rejectAuth := by
  have htype' : (a.type == AuthType.none) = false := by
    rcases htype with h | h <;> simp [h]
  simp only [streamRouteDecision, hauth, htype']
  rw [hauth] at hempty
  simp [hempty]

/-- C8, witness: a misconfigured apiKey auth is rejected by the stream route. -/
theorem c8_stream_route_auth_guard_witness :
    streamRouteDecision
        { endpointUrl := some (JsVal.str "https://x/a"),
          params := some wellFormedParams,
          auth := some misconfiguredApiKeyAuth }
      = StreamDecision.rejectAuth := by
  exact c8_stream_route_auth_guard _ misconfiguredApiKeyAuth rfl (Or.inl rfl) rfl

/-- C9: whenever an object payload's top-level `error` field holds a string,
`extractResponseText` returns that string verbatim, whatever else the payload
contains — the check precedes the error-object formatting, the task/message
handling, the legacy `result` fallbacks and the JSON pretty-print. -/
theorem c9_error_string_precedence (fields : List (String × JsVal)) (s : String)
    (h : lookupField fields "error" = some (JsVal.str s)) :
    extractResponseText (JsVal.obj fields) = s := by
  simp [extractResponseText, h]

/-- C9, witness: a payload that also offers a task shape and a legacy result
still yields the top-level error string. -/
theorem c9_error_string_precedence_witness :
    extractResponseText
        (JsVal.obj [("error", JsVal.str "boom"), ("kind", JsVal.str "task"),
                    ("result", JsVal.str "other")])
      = "boom" := by
  exact c9_error_string_precedence
    [("error", JsVal.str "boom"), ("kind", JsVal.str "task"), ("result", JsVal.str "other")]
    "boom" rfl

/-- C10: re-registering a card leaves messages, logs, auth, context id, active
task id, tracked tasks and the endpoint override untouched, replaces the
stored card (moving it to the front of the agent list), keeps any existing
endpoint/method selections for the id, and applies the defaults (first
endpoint url, "message/send") only when no prior selection exists. -/
theorem c10_reregistration_preserves_state :
    ∀ (s : AppState) (card : AgentCardNormalized),
      (handleRegisterApply s card).messagesByAgent = s.messagesByAgent
      ∧ (handleRegisterApply s card).rpcLogsByAgent = s.rpcLogsByAgent
      ∧ (handleRegisterApply s card).authByAgent = s.authByAgent
      ∧ (handleRegisterApply s card).contextIdByAgent = s.contextIdByAgent
      ∧ (handleRegisterApply s card).taskIdByAgent = s.taskIdByAgent
      ∧ (handleRegisterApply s card).trackedTasksByAgent = s.trackedTasksByAgent
      ∧ (handleRegisterApply s card).endpointOverrideByAgent = s.endpointOverrideByAgent
      ∧ (handleRegisterApply s card).agents = card :: s.agents.filter (fun a => a.id ≠ card.id)
      ∧ (handleRegisterApply s card).endpointByAgent card.id
          = some ((s.endpointByAgent card.id).getD
              (((card.endpoints.head?).map AgentEndpoint.url).getD ""))
      ∧ (handleRegisterApply s card).methodByAgent card.id
          = some ((s.methodByAgent card.id).getD DEFAULT_METHOD)
      ∧ ∀ k, k ≠ card.id →
          (handleRegisterApply s card).endpointByAgent k = s.endpointByAgent k
          ∧ (handleRegisterApply s card).methodByAgent k = s.methodByAgent k := by
  intro s card
  refine ⟨rfl, rfl, rfl, rfl, rfl, rfl, rfl, rfl, ?_, ?_, ?_⟩
  · simp [handleRegisterApply]
  · simp [handleRegisterApply]
  · intro k hk
    exact ⟨by simp [handleRegisterApply, hk], by simp [handleRegisterApply, hk]⟩

/-- C10, witness: re-registering a card with id `agent-1` over `sampleState`
keeps the existing endpoint selection, keeps another agent's entries, and
leaves the message map untouched. -/
theorem c10_reregistration_preserves_state_witness :
    (handleRegisterApply sampleState
        { id := "agent-1", name := "Sample2",
          endpoints := [{ id := "jsonrpc-1", name := "E", url := "https://x/b",
                          protocol := "jsonrpc" }],
          capabilities := { streaming := true, pushNotifications := false,
                            stateTransitionHistory := false } }).messagesByAgent
      = sampleState.messagesByAgent
    ∧ (handleRegisterApply sampleState
        { id := "agent-1", name := "Sample2",
          endpoints := [{ id := "jsonrpc-1", name := "E", url := "https://x/b",
                          protocol := "jsonrpc" }],
          capabilities := { streaming := true, pushNotifications := false,
                            stateTransitionHistory := false } }).endpointByAgent "other"
      = sampleState.endpointByAgent "other" := by
  have h := c10_reregistration_preserves_state sampleState
    { id := "agent-1", name := "Sample2",
      endpoints := [{ id := "jsonrpc-1", name := "E", url := "https://x/b",
                      protocol := "jsonrpc" }],
      capabilities := { streaming := true, pushNotifications := false,
                        stateTransitionHistory := false } }
  exact ⟨h.1, (h.2.2.2.2.2.2.2.2.2.2 "other" (by decide)).1⟩
